import Mathlib

/-!
Verification of the CLI-Games launcher core (a Python terminal multi-game
launcher) against its natural-language specification.

The definitions below are a shallow embedding of the relevant parts of the
source tree:
  core/launcher.py, core/leaderboard.py, core/plugin_manager.py,
  plugins/base_game.py, plugins/builtin/maze_game.py,
  plugins/builtin/snake_game.py, plugins/builtin/tetris_game.py.

Conventions of the embedding:
  - Python ints are Lean `Int` (or `Nat` for values that are provably
    non-negative counters in the source); Python wall-clock time
    (`time.time()`, a float of seconds) is modelled as an `Int` number of
    milliseconds, so durations stated in seconds in the source appear
    multiplied by 1000; the claims under verification concern only the
    ordering and additivity of times, not float rounding.
  - Randomness (`random.choice`, `random.random`) is passed in explicitly
    as oracle parameters.
  - A Python statement that can raise is embedded in `Except PyError`;
    reading a name that is bound nowhere in the enclosing scopes is
    modelled by an explicit lookup in the association list of names that
    the enclosing Python scope actually binds.
  - curses screen writes are returned as explicit lists of
    (row, col, glyph) data instead of being performed.
-/

/-- Python exception values that the embedded code can raise. -/
inductive PyError
  | nameError (name : String)
  | generic (msg : String)
deriving DecidableEq, Repr

/-- `GameMode` enum from plugins/base_game.py. -/
inductive GameMode
  | NORMAL
  | TIME_ATTACK
  | INFINITE
  | SPEEDRUN
  | PRACTICE
  | MULTIPLAYER
deriving DecidableEq, Repr

/-- The `value` of each `GameMode` member (plugins/base_game.py lines 13-18). -/
def GameMode.value : GameMode → String
  | .NORMAL => "normal"
  | .TIME_ATTACK => "time_attack"
  | .INFINITE => "infinite"
  | .SPEEDRUN => "speedrun"
  | .PRACTICE => "practice"
  | .MULTIPLAYER => "multiplayer"

/-- `mode.value.replace(…)` then `.title()` as computed in
GameLauncher._select_game_mode (core/launcher.py line 466): the underscore
becomes a space and each word is capitalised. -/
def GameMode.title : GameMode → String
  | .NORMAL => "Normal"
  | .TIME_ATTACK => "Time Attack"
  | .INFINITE => "Infinite"
  | .SPEEDRUN => "Speedrun"
  | .PRACTICE => "Practice"
  | .MULTIPLAYER => "Multiplayer"

/-- `BaseGame.validate_mode` (plugins/base_game.py lines 73-75):
`return mode in self.supported_modes`. -/
def validate_mode (supported_modes : List GameMode) (mode : GameMode) : Bool :=
  supported_modes.contains mode

/-- `GameLauncher._select_game_mode` (core/launcher.py lines 458-478).
If the game declares exactly one supported mode it is returned directly.
Otherwise a menu of the supported modes' titles (plus a "Back" entry) is
shown; `menuChoice` is the text of the entry the user picked (`none` when
the menu returned no result).  The first supported mode whose title equals
the picked text is returned; otherwise `None`. -/
def selectGameMode (supported_modes : List GameMode) (menuChoice : Option String) :
    Option GameMode :=
  match supported_modes with
  | [m] => some m
  | _ =>
    match menuChoice with
    | none => none
    | some text =>
      if text = "Back" then none
      else supported_modes.find? (fun mode => mode.title = text)

/-! ### core/leaderboard.py : LeaderboardSystem.__init__ -/

/-- `Config` (core/config.py): the fields LeaderboardSystem touches. -/
structure Config where
  config_dir : String
deriving DecidableEq, Repr

/-- Names bound at module level in core/leaderboard.py when
`LeaderboardSystem.__init__` runs: the imports on lines 6-11 and the
classes defined in the module.  The name `config` is NOT among them. -/
def leaderboardModuleGlobals : List String :=
  ["json", "time", "datetime", "Dict", "List", "Any", "Optional", "Tuple",
   "Enum", "Path", "ScoreType", "Achievement", "LeaderboardEntry",
   "LeaderboardSystem"]

/-- Local names bound in `LeaderboardSystem.__init__` when line 76
(`self.data_file = config.config_dir / 'leaderboard.json'`) executes:
only the two parameters.  The name `config` is NOT among them either
(the parameter is called `config_manager`). -/
def leaderboardInitLocals : List String :=
  ["self", "config_manager"]

/-- Python name resolution at line 76 of core/leaderboard.py: a bare name is
looked up in the local scope then the module globals; an unbound name
raises `NameError`. -/
def leaderboardLookupName (n : String) : Except PyError Unit :=
  if leaderboardInitLocals.contains n || leaderboardModuleGlobals.contains n then
    Except.ok ()
  else
    Except.error (PyError.nameError n)

/-- The attributes `LeaderboardSystem.__init__` would set. -/
structure LeaderboardSystem where
  data_file : String
  achievements_file : String
deriving DecidableEq, Repr

/-- `LeaderboardSystem.__init__` (core/leaderboard.py lines 74-85).
Line 75 binds `self.config = config_manager`; line 76 then reads the bare
name `config`, which resolves through `leaderboardLookupName`. -/
def LeaderboardSystem.init (config_manager : Config) :
    Except PyError LeaderboardSystem := do
  let _ ← leaderboardLookupName "config"
  -- unreachable continuation of __init__ (lines 76-85)
  Except.ok { data_file := config_manager.config_dir ++ "/leaderboard.json",
              achievements_file := config_manager.config_dir ++ "/achievements.json" }

/-- `GameLauncher.__init__` (core/launcher.py lines 19-28): builds the
plugin manager (line 21, raises nothing relevant here), then constructs
`LeaderboardSystem(config)` on line 22; an exception propagates out of the
constructor. -/
def GameLauncher.init (config : Config) : Except PyError LeaderboardSystem := do
  -- self.plugin_manager = PluginManager(config)  (binds attributes only)
  let lb ← LeaderboardSystem.init config
  -- the remaining lines 23-28 would run only after a successful construction
  Except.ok lb

/-! ### core/launcher.py : _launch_game -/

/-- A loaded plugin as core/plugin_manager.py's `PluginInfo` records it:
the resolved file, the chosen `BaseGame` subclass (identified by a tag),
the enabled flag and the metadata name (absent when building the metadata
instance failed). -/
structure PluginInfo where
  module_path : String
  gameClassId : Nat
  enabled : Bool
  metaName : Option String
deriving DecidableEq, Repr

/-- `plugin_info.metadata.get('name', 'Unknown Game')`
(core/launcher.py line 439). -/
def PluginInfo.metadataName (p : PluginInfo) : String :=
  p.metaName.getD "Unknown Game"

/-- What one call to `game.run(stdscr, mode)` did: returned a final score,
or raised. -/
inductive RunOutcome
  | ok (score : Int)
  | exn (msg : String)
deriving DecidableEq, Repr

/-- One row of the score sink: the arguments of
`leaderboard_system.add_score` (core/launcher.py lines 442-445). -/
structure ScoreReport where
  player : String
  score : Int
  game_name : String
  mode_name : String
deriving DecidableEq, Repr

/-- Observable outcome of `GameLauncher._launch_game`. -/
structure LaunchOutcome where
  reports : List ScoreReport
  errorShown : Bool
  running : Bool
deriving DecidableEq, Repr

/-- `GameLauncher._launch_game` (core/launcher.py lines 417-456).
`plugin_info` is what `get_plugin` returned, `modeSel` what
`_select_game_mode` returned, `runResult` what `game.run` did.  The body is
a single `try` block: a score is added to the leaderboard exactly when
`run` returned; `except Exception` shows an error instead; `self.running`
is never touched, so the menu loop of `_main_menu` continues either way. -/
def launchGame (player : String) (plugin_info : Option PluginInfo)
    (modeSel : Option GameMode) (runResult : RunOutcome) : LaunchOutcome :=
  match plugin_info with
  | none => { reports := [], errorShown := false, running := true }
  | some info =>
    match modeSel with
    | none => { reports := [], errorShown := false, running := true }
    | some mode =>
      match runResult with
      | RunOutcome.exn _ =>
          -- except Exception as e: self._show_error(...)
          { reports := [], errorShown := true, running := true }
      | RunOutcome.ok score =>
          { reports := [{ player := player, score := score,
                          game_name := info.metadataName,
                          mode_name := mode.value }],
            errorShown := false, running := true }

/-! ### plugins/builtin/maze_game.py : scoring events -/

/-- The score-affecting events of MazeGame with the source expression each
one applies to `self.score`:
  coin            : `self.score += 10`                    (line 264)
  stepOnEnemy     : `self.score = max(0, self.score-50)`  (line 268)
  enemyCollision  : `self.score = max(0, self.score-100)` (line 308)
  levelComplete   : `self.score += 100 + time_bonus + move_bonus + coin_bonus`
                    (lines 314-324); `elapsedMs` is wall time minus
                    `start_time`, `time_limit` as in the state, `moves` and
                    `coinsLeft` the counters at that moment. -/
inductive MazeScoreEvent
  | coin
  | stepOnEnemy
  | enemyCollision
  | levelComplete (elapsedMs time_limit : Int) (moves coinsLeft : Nat)
deriving DecidableEq, Repr

/-- One score transition of MazeGame (see `MazeScoreEvent`). -/
def mazeScoreStep (score : Int) : MazeScoreEvent → Int
  | MazeScoreEvent.coin => score + 10
  | MazeScoreEvent.stepOnEnemy => max 0 (score - 50)
  | MazeScoreEvent.enemyCollision => max 0 (score - 100)
  | MazeScoreEvent.levelComplete elapsedMs time_limit moves coinsLeft =>
      let remaining : Int := max 0 (time_limit - elapsedMs)
      let time_bonus : Int := if time_limit > 0 then remaining * 2 else 0
      let move_bonus : Int := max 0 (100 - (moves : Int))
      let coin_bonus : Int := (coinsLeft : Int) * 20
      score + (100 + time_bonus + move_bonus + coin_bonus)

/-! ### plugins/builtin/maze_game.py : session state, mode dispatch -/

/-- The MazeGame session fields involved in mode dispatch and scoring
(subset of the attributes set in `MazeGame.__init__` lines 54-72; the grid
itself, positions, enemies and the visited set are summarised by the coin
counter `coins = len(self.coins)` which is all the tracked logic reads).
`current_mode` is an `Option` because no statement anywhere in MazeGame
ever assigns `self.current_mode`; `none` models the attribute being unset,
exactly what `hasattr(self, 'current_mode')` on line 327 tests. -/
structure MazeState where
  score : Int
  moves : Nat
  level : Nat
  difficulty : Int
  time_limit : Int
  start_time : Int
  game_over : Bool
  won : Bool
  coins : Nat
  current_mode : Option GameMode
deriving DecidableEq, Repr

/-- A fresh `MazeGame()` instance: `BaseGame.__init__` sets `score = 0`,
`MazeGame.__init__` (lines 54-72) sets the rest; `current_mode` is unset. -/
def mazeNew : MazeState :=
  { score := 0, moves := 0, level := 1, difficulty := 1, time_limit := 0,
    start_time := 0, game_over := false, won := false, coins := 0,
    current_mode := none }

/-- Effect of `MazeGame._generate_maze` (lines 140-173) on the tracked
fields: the grid is rebuilt, the player and exit are placed, and the coin
and enemy lists are re-placed at random positions; `newCoins` is the number
of coins `_place_items` managed to place (the randomness oracle).  None of
score, moves, level, difficulty, time_limit, start_time, game_over, won or
current_mode is assigned by `_generate_maze`. -/
def mazeGenerateMaze (newCoins : Nat) (s : MazeState) : MazeState :=
  { s with coins := newCoins }

/-- `MazeGame._initialize_game` (lines 106-138), with `now` the value of
`time.time()` in milliseconds and `difficulty` from kwargs (default 1).
The width/height computation only concerns render geometry and is omitted
from the tracked state.  Note that `self.current_mode` is NOT assigned:
the `mode` parameter stays a local. -/
def mazeInitGame (mode : GameMode) (difficulty : Int) (now : Int)
    (newCoins : Nat) (s : MazeState) : MazeState :=
  let s := { s with game_over := false, won := false, moves := 0, level := 1,
                    difficulty := difficulty }
  let s :=
    match mode with
    | GameMode.TIME_ATTACK =>
        { s with time_limit := (120 + 30 * (3 - difficulty)) * 1000, start_time := now }
    | GameMode.INFINITE => { s with level := 1 }
    | GameMode.SPEEDRUN =>
        { s with time_limit := (60 + 20 * (3 - difficulty)) * 1000, start_time := now }
    | _ => s
  mazeGenerateMaze newCoins s

/-- `MazeGame._handle_level_complete` (lines 312-333), with `now` the value
of `time.time()` in milliseconds and `newCoins` the coin-placement oracle
for the regeneration branch.  The bonus arithmetic is lines 314-324; the
`hasattr(self, 'current_mode')` test on line 327 is
`s.current_mode ≠ none` combined with the equality against INFINITE. -/
def mazeHandleLevelComplete (now : Int) (newCoins : Nat) (s : MazeState) :
    MazeState :=
  let remaining : Int := max 0 (s.time_limit - (now - s.start_time))
  let time_bonus : Int := if s.time_limit > 0 then remaining * 2 else 0
  let move_bonus : Int := max 0 (100 - (s.moves : Int))
  let coin_bonus : Int := (s.coins : Int) * 20
  let s := { s with score := s.score + (100 + time_bonus + move_bonus + coin_bonus) }
  if s.current_mode = some GameMode.INFINITE then
    let s := { s with level := s.level + 1 }
    let s := { s with difficulty := min 4 (1 + (s.level : Int) / 3) }
    mazeGenerateMaze newCoins s
  else
    { s with game_over := true, won := true }

/-! ### plugins/builtin/snake_game.py -/

/-- `Direction` enum from snake_game.py lines 14-18. -/
inductive SnakeDirection
  | UP
  | DOWN
  | LEFT
  | RIGHT
deriving DecidableEq, Repr

/-- The (dx, dy) value of each direction. -/
def SnakeDirection.value : SnakeDirection → Int × Int
  | .UP => (0, -1)
  | .DOWN => (0, 1)
  | .LEFT => (-1, 0)
  | .RIGHT => (1, 0)

/-- The exact opposite of a direction (the reversal the guards on lines
179-185 reject: the guard for setting UP is `direction != DOWN`, etc.). -/
def SnakeDirection.opposite : SnakeDirection → SnakeDirection
  | .UP => .DOWN
  | .DOWN => .UP
  | .LEFT => .RIGHT
  | .RIGHT => .LEFT

/-- One polled key as `_handle_game_input` classifies it: ESC, the pause
key, one of the four direction key groups, or anything else (including the
-1 that `getch` returns when no key is pending). -/
inductive SnakeKey
  | esc
  | pause
  | up
  | down
  | left
  | right
  | other
deriving DecidableEq, Repr

/-- The key group that steers toward a given direction
(`KEY_UP`/`w`/`W` etc., lines 179-185). -/
def snakeKeyFor : SnakeDirection → SnakeKey
  | .UP => .up
  | .DOWN => .down
  | .LEFT => .left
  | .RIGHT => .right

/-- SnakeGame session state: the attributes set in `SnakeGame.__init__`
(lines 45-62) plus `score`/`running` from `BaseGame.__init__` and
`current_mode` (first assigned in `_initialize_game`, hence an Option).
Times are in milliseconds; `game_speed` is already in milliseconds in the
source. -/
structure SnakeState where
  snake : List (Int × Int)
  direction : SnakeDirection
  next_direction : SnakeDirection
  food_pos : Int × Int
  special_food : Option (Int × Int)
  special_food_timer : Nat
  width : Int
  height : Int
  game_speed : Int
  moves : Nat
  food_eaten : Nat
  level : Nat
  paused : Bool
  game_over : Bool
  start_time : Int
  time_limit : Int
  last_update : Int
  running : Bool
  score : Int
  current_mode : Option GameMode
deriving DecidableEq, Repr

/-- A fresh `SnakeGame()` instance (lines 23-62). -/
def snakeNew : SnakeState :=
  { snake := [], direction := .RIGHT, next_direction := .RIGHT,
    food_pos := (0, 0), special_food := none, special_food_timer := 0,
    width := 0, height := 0, game_speed := 100, moves := 0, food_eaten := 0,
    level := 1, paused := false, game_over := false, start_time := 0,
    time_limit := 0, last_update := 0, running := false, score := 0,
    current_mode := none }

/-- `SnakeGame._handle_game_input` (lines 164-186) acting on the session
state for one polled key. -/
def snakeHandleGameInput (s : SnakeState) (key : SnakeKey) : SnakeState :=
  if key = .esc then { s with running := false }
  else if key = .pause then { s with paused := !s.paused }
  else if s.paused then s
  else if key = .up ∧ s.direction ≠ .DOWN then { s with next_direction := .UP }
  else if key = .down ∧ s.direction ≠ .UP then { s with next_direction := .DOWN }
  else if key = .left ∧ s.direction ≠ .RIGHT then { s with next_direction := .LEFT }
  else if key = .right ∧ s.direction ≠ .LEFT then { s with next_direction := .RIGHT }
  else s

/-- Randomness oracle for `_place_food`: the index `random.choice` picks
(reduced modulo the number of available positions) and whether
`random.random() < 0.1` came out true. -/
structure SnakeRng where
  foodIndex : Nat
  special : Bool
deriving DecidableEq, Repr

/-- The `available_positions` list built in `_place_food` (lines 149-154):
all (x, y) of the board, x outer loop, that the snake does not occupy. -/
def snakeAvailablePositions (s : SnakeState) : List (Int × Int) :=
  (List.range s.width.toNat).flatMap (fun x =>
    (List.range s.height.toNat).filterMap (fun y =>
      let p : Int × Int := ((x : Int), (y : Int))
      if p ∈ s.snake then none else some p))

/-- `SnakeGame._place_food` (lines 147-162). -/
def snakePlaceFood (rng : SnakeRng) (s : SnakeState) : SnakeState :=
  let available := snakeAvailablePositions s
  if available.isEmpty then s
  else
    let s := { s with food_pos := available.getD (rng.foodIndex % available.length) (0, 0) }
    if rng.special then
      { s with special_food := some s.food_pos, special_food_timer := 50 }
    else s

/-- `SnakeGame._initialize_snake` (lines 133-145). -/
def snakeInitSnake (s : SnakeState) : SnakeState :=
  let start_x := s.width / 2
  let start_y := s.height / 2
  { s with snake := [(start_x, start_y), (start_x - 1, start_y), (start_x - 2, start_y)],
           direction := .RIGHT, next_direction := .RIGHT }

/-- `SnakeGame._initialize_game` (lines 96-131), with `now` the value of
`time.time()` in milliseconds and (screenH, screenW) the curses screen
dimensions.  Source time limits are in seconds (180, 120), hence the
factor 1000 here. -/
def snakeInitGame (mode : GameMode) (now screenH screenW : Int) (rng : SnakeRng)
    (s : SnakeState) : SnakeState :=
  let s := { s with game_over := false, paused := false, score := 0, moves := 0,
                    food_eaten := 0, level := 1, current_mode := some mode,
                    width := min (screenW - 4) 30, height := min (screenH - 6) 20 }
  let s :=
    match mode with
    | GameMode.NORMAL => { s with game_speed := 150 }
    | GameMode.TIME_ATTACK =>
        { s with game_speed := 120, time_limit := 180 * 1000, start_time := now }
    | GameMode.INFINITE => { s with game_speed := 100 }
    | GameMode.SPEEDRUN =>
        { s with game_speed := 80, time_limit := 120 * 1000, start_time := now }
    | _ => s
  snakePlaceFood rng (snakeInitSnake s)

/-- `SnakeGame._update` (lines 188-248), with `now` the value of
`time.time()` in milliseconds and `rng` the oracle for any `_place_food`
call it makes.  The `[]` snake case cannot occur in a session (the snake
always has ≥ 1 segment after `_initialize_snake`; the source would raise
IndexError on `self.snake[0]`). -/
def snakeUpdate (rng : SnakeRng) (now : Int) (s : SnakeState) : SnakeState :=
  if s.paused ∨ s.game_over then s
  else if s.time_limit > 0 ∧ now - s.start_time ≥ s.time_limit then
    { s with game_over := true }
  else
    let s := { s with direction := s.next_direction }
    match s.snake with
    | [] => s
    | (head_x, head_y) :: _ =>
      let d := s.direction.value
      let new_head : Int × Int := (head_x + d.1, head_y + d.2)
      if new_head.1 < 0 ∨ new_head.1 ≥ s.width ∨ new_head.2 < 0 ∨
          new_head.2 ≥ s.height ∨ new_head ∈ s.snake then
        { s with game_over := true }
      else
        let s := { s with snake := new_head :: s.snake, moves := s.moves + 1 }
        let foodStep :=
          if new_head = s.food_pos then
            let s := { s with food_eaten := s.food_eaten + 1, score := s.score + 10 }
            let s := snakePlaceFood rng s
            let s :=
              if s.food_eaten % 5 = 0 then
                { s with level := s.level + 1, game_speed := max 50 (s.game_speed - 10) }
              else s
            (s, true)
          else if some new_head = s.special_food then
            ({ s with score := s.score + 50, special_food := none,
                      special_food_timer := 0 }, false)
          else
            ({ s with snake := s.snake.dropLast }, false)
        let s := foodStep.1
        let food_eaten := foodStep.2
        let s :=
          if s.special_food_timer > 0 then
            let s := { s with special_food_timer := s.special_food_timer - 1 }
            if s.special_food_timer = 0 then { s with special_food := none } else s
          else s
        if s.current_mode = some GameMode.SPEEDRUN ∧ food_eaten then
          { s with score := s.score + max 0 (20 - (s.snake.length : Int)) }
        else s

/-- One iteration of the `while` loop in `SnakeGame.run` (lines 76-91),
driven from outside by the wall clock and the pending key: `dt` is how much
`time.time()` advanced since the previous iteration, `key` the result of
`getch` (`none` = no pending key, which matches no branch of
`_handle_game_input`), `rng` the food oracle for a possible update.  The
loop guard `self.running and not self.game_over` is evaluated at the top;
rendering performs no state change.  The pair carried along is
(session state, current wall time). -/
structure SnakeTick where
  dt : Int
  key : Option SnakeKey
  rng : SnakeRng
deriving DecidableEq, Repr

/-- One loop iteration of `SnakeGame.run` (see `SnakeTick`). -/
def snakeLoopTick (t : SnakeTick) (s : SnakeState) (now : Int) :
    SnakeState × Int :=
  let now := now + t.dt
  if s.running ∧ ¬s.game_over then
    let s :=
      match t.key with
      | none => s
      | some k => snakeHandleGameInput s k
    let s :=
      if now - s.last_update ≥ s.game_speed then
        let s := snakeUpdate t.rng now s
        { s with last_update := now }
      else s
    (s, now)
  else (s, now)

/-- A whole session of `SnakeGame.run` (lines 64-94): screen setup,
`_initialize_game`, then the loop driven by `ticks`; `now0` is
`time.time()` at entry.  Returns the final state and wall time. -/
def snakeRun (mode : GameMode) (now0 screenH screenW : Int) (rng0 : SnakeRng)
    (ticks : List SnakeTick) : SnakeState × Int :=
  let s := snakeInitGame mode now0 screenH screenW rng0 { snakeNew with running := true }
  ticks.foldl (fun p t => snakeLoopTick t p.1 p.2) (s, now0)

/-- Observation on top of `snakeRun`: the accumulated un-paused play time,
i.e. the sum of the wall-time increments of those loop iterations that ran
while the session was live (`running`, not `game_over`) and not paused.
This is the quantity claim P2 compares between a paused and an unpaused
run. -/
def snakePlayTime (mode : GameMode) (now0 screenH screenW : Int) (rng0 : SnakeRng)
    (ticks : List SnakeTick) : Int :=
  let s := snakeInitGame mode now0 screenH screenW rng0 { snakeNew with running := true }
  (ticks.foldl
    (fun (acc : SnakeState × Int × Int) t =>
      let play :=
        if acc.1.running ∧ ¬acc.1.game_over ∧ ¬acc.1.paused then
          acc.2.2 + t.dt
        else acc.2.2
      let p := snakeLoopTick t acc.1 acc.2.1
      (p.1, p.2, play))
    (s, now0, 0)).2.2

/-- `SnakeGame._draw_ui` (lines 326-349) as the list of
(row, col, text) writes it performs, with `now` the value of `time.time()`
in milliseconds.  The source formats the remaining time as seconds with
one decimal (`f"{remaining:.1f}s"`); here the same quantity is printed as
an integer number of milliseconds — an injective re-rendering of the same
number. -/
def snakeDrawUi (now : Int) (s : SnakeState) : List (Int × Int × String) :=
  let info_lines := [
    "Score: " ++ toString s.score,
    "Length: " ++ toString s.snake.length,
    "Food: " ++ toString s.food_eaten,
    "Speed: " ++ toString (1000 / s.game_speed) ++ " FPS"]
  let info_lines :=
    if s.time_limit > 0 then
      info_lines ++ ["Time: " ++ toString (max 0 (s.time_limit - (now - s.start_time))) ++ "s"]
    else info_lines
  (info_lines.enum.map (fun p => ((2 + p.1 : Int), (2 : Int), p.2))) ++
    [((2 + info_lines.length : Int), (2 : Int),
      "Next Level: " ++ toString (s.food_eaten % 5) ++ "/5")]

/-! ### plugins/builtin/tetris_game.py -/

/-- `TetrominoType` (tetris_game.py lines 14-22); `shapeOf` is each
member's value, a matrix of 0/1 cells. -/
inductive TetrominoType
  | I
  | O
  | T
  | S
  | Z
  | J
  | L
deriving DecidableEq, Repr

/-- The `value` matrix of each tetromino type. -/
def TetrominoType.shapeOf : TetrominoType → List (List Nat)
  | .I => [[1, 1, 1, 1]]
  | .O => [[1, 1], [1, 1]]
  | .T => [[0, 1, 0], [1, 1, 1]]
  | .S => [[0, 1, 1], [1, 1, 0]]
  | .Z => [[1, 1, 0], [0, 1, 1]]
  | .J => [[1, 0, 0], [1, 1, 1]]
  | .L => [[0, 0, 1], [1, 1, 1]]

/-- `Tetromino` (lines 24-32): a piece with its position and rotation
counter (incremented by `rotate`, decremented when a rotation is
reverted, so an `Int`). -/
structure Tetromino where
  type : TetrominoType
  x : Int
  y : Int
  rotation : Int
deriving DecidableEq, Repr

/-- One 90-degree clockwise rotation as the inner loop of
`get_rotated_shape` (lines 41-54) computes it:
`rotated[x] = [current[y][x] for y in range(height-1, -1, -1)]`. -/
def rotateCW (current : List (List Nat)) : List (List Nat) :=
  let h := current.length
  let w := (current.headD []).length
  (List.range w).map (fun x =>
    ((List.range h).reverse).map (fun y => ((current.getD y []).getD x 0)))

/-- `Tetromino.get_rotated_shape` (lines 34-56): the four successive
rotations of the base shape, indexed by `rotation % 4` (the list always has
length 4; Python `%` on a positive modulus is `Int.emod`). -/
def Tetromino.get_rotated_shape (p : Tetromino) : List (List Nat) :=
  let r0 := p.type.shapeOf
  let r1 := rotateCW r0
  let r2 := rotateCW r1
  let r3 := rotateCW r2
  [r0, r1, r2, r3].getD (p.rotation.emod 4).toNat []

/-- `Tetromino.get_blocks` (lines 72-82): the board coordinates of the
occupied cells of the current rotation (`if cell:` is `cell ≠ 0`). -/
def Tetromino.get_blocks (p : Tetromino) : List (Int × Int) :=
  p.get_rotated_shape.enum.flatMap (fun row =>
    row.2.enum.filterMap (fun cell =>
      if cell.2 ≠ 0 then some (p.x + (cell.1 : Int), p.y + (row.1 : Int))
      else none))

/-- `TetrisGame._check_collision` (lines 204-221).  For each block (bx, by)
of the piece, the tested position is `test_x + (x - piece.x) = bx + dx`
(and likewise for y).  A collision is an out-of-bounds position
(left/right/bottom; the top is open) or an occupied board cell. -/
def tetrisCheckCollision (board : List (List Nat)) (width height : Int)
    (p : Tetromino) (dx dy : Int) : Bool :=
  p.get_blocks.any (fun b =>
    let new_x := b.1 + dx
    let new_y := b.2 + dy
    decide (new_x < 0) || decide (new_x ≥ width) || decide (new_y ≥ height) ||
      (decide (new_y ≥ 0) && decide (((board.getD new_y.toNat []).getD new_x.toNat 0) ≠ 0)))

/-- Fuel-indexed unfolding of the `while` loop computing `ghost_y` in
`_draw_board` (lines 411-413): starting from `g = piece.y`, increment `g`
until `_check_collision(piece, dy = g - piece.y + 1)`. -/
def tetrisGhostYAux (board : List (List Nat)) (width height : Int)
    (p : Tetromino) : Nat → Int → Int
  | 0, g => g
  | Nat.succ fuel, g =>
      if tetrisCheckCollision board width height p 0 (g - p.y + 1) then g
      else tetrisGhostYAux board width height p fuel (g + 1)

/-- The `ghost_y` value of `_draw_board`: the loop terminates because a
drop of more than `height - piece.y` certainly collides with the floor; the
fuel bounds that descent. -/
def tetrisGhostY (board : List (List Nat)) (width height : Int)
    (p : Tetromino) : Int :=
  tetrisGhostYAux board width height p ((height - p.y).toNat + 1) p.y

/-- The local names bound in `TetrisGame._draw_board` by the time the
ghost-piece loop body (lines 415-419) runs, with their values for the
current loop iteration: the parameters, the loop variables and `ghost_y` /
`ghost_px`.  `ghost_py` is NOT among them — no statement of `_draw_board`
(or of any enclosing scope) ever binds `ghost_py`, yet line 418 reads it. -/
def tetrisDrawBoardLocals (x y ghost_y px py ghost_px : Int) :
    List (String × Int) :=
  [("x", x), ("y", y), ("ghost_y", ghost_y), ("px", px), ("py", py),
   ("ghost_px", ghost_px)]

/-- The ghost-piece loop of `_draw_board` (lines 415-419): for each block
(px, py) of the piece, compute `ghost_px`, and when the guard
`0 <= py < height and 0 <= px < width` holds, execute
`screen.addch(y + ghost_py, x + ghost_px, …)` — whose read of the bare
name `ghost_py` goes through the local-name table above. -/
def tetrisGhostLoop (width height : Int) (p : Tetromino) (ghost_y x y : Int) :
    List (Int × Int) → List (Int × Int × Char) →
    Except PyError (List (Int × Int × Char))
  | [], writes => Except.ok writes
  | b :: rest, writes =>
    let px := b.1
    let py := b.2
    let ghost_px := px + (ghost_y - p.y)
    if 0 ≤ py ∧ py < height ∧ 0 ≤ px ∧ px < width then
      match (tetrisDrawBoardLocals x y ghost_y px py ghost_px).lookup "ghost_py" with
      | none => Except.error (PyError.nameError "ghost_py")
      | some v =>
          tetrisGhostLoop width height p ghost_y x y rest
            (writes ++ [(y + v, x + ghost_px, '□')])
    else tetrisGhostLoop width height p ghost_y x y rest writes

/-- The whole ghost-piece loop of `_draw_board` over the piece's blocks. -/
def tetrisGhostWrites (width height : Int) (p : Tetromino) (ghost_y x y : Int) :
    Except PyError (List (Int × Int × Char)) :=
  tetrisGhostLoop width height p ghost_y x y p.get_blocks []

/-- `TetrisGame._draw_board` (lines 377-419) as the list of
(row, col, glyph) writes it performs: border (lines 380-391), board
content (lines 393-400), the current piece (lines 402-407), then the ghost
piece (lines 409-419), whose loop is `tetrisGhostWrites`. -/
def tetrisDrawBoard (board : List (List Nat)) (width height : Int)
    (current_piece : Option Tetromino) (x y : Int) :
    Except PyError (List (Int × Int × Char)) := do
  let borderWrites : List (Int × Int × Char) :=
    [(y - 1, x - 1, '┌'), (y - 1, x + width, '┐'),
     (y + height, x - 1, '└'), (y + height, x + width, '┘')] ++
    (List.range width.toNat).flatMap (fun i =>
      [(y - 1, x + (i : Int), '─'), (y + height, x + (i : Int), '─')]) ++
    (List.range height.toNat).flatMap (fun i =>
      [(y + (i : Int), x - 1, '│'), (y + (i : Int), x + width, '│')])
  let contentWrites : List (Int × Int × Char) :=
    (List.range height.toNat).flatMap (fun (py : Nat) =>
      (List.range width.toNat).map (fun (px : Nat) =>
        ((y + (py : Int)), (x + (px : Int)),
          if (board.getD py []).getD px 0 ≠ 0 then '█' else '·')))
  match current_piece with
  | none => Except.ok (borderWrites ++ contentWrites)
  | some p =>
    let pieceWrites : List (Int × Int × Char) :=
      p.get_blocks.filterMap (fun b =>
        if 0 ≤ b.2 ∧ b.2 < height ∧ 0 ≤ b.1 ∧ b.1 < width then
          some (y + b.2, x + b.1, '■')
        else none)
    let ghost_y := tetrisGhostY board width height p
    let ghostW ← tetrisGhostWrites width height p ghost_y x y
    Except.ok (borderWrites ++ contentWrites ++ pieceWrites ++ ghostW)

/-- `TetrisGame._spawn_new_piece` start position (lines 194-198):
`start_x = width // 2 - 1`, `start_y = 0`, rotation 0. -/
def tetrisSpawnPiece (width : Int) (t : TetrominoType) : Tetromino :=
  { type := t, x := width / 2 - 1, y := 0, rotation := 0 }

/-- The empty 20 x 10 board built in `_initialize_game` (line 169). -/
def tetrisEmptyBoard : List (List Nat) :=
  List.replicate 20 (List.replicate 10 0)

/-! ### core/plugin_manager.py : load_plugin / load_all_plugins -/

/-- A discovered candidate as `PluginManager.load_plugin` probes it:
whether some search path resolves it to an existing file, whether
`spec_from_file_location` produced a usable spec with a loader, whether
executing the module body raised, which `BaseGame` subclasses (by tag) the
loaded module exposes, and the metadata name its first game class reports
(absent if instantiating it for metadata failed). -/
structure PluginCandidate where
  fileFound : Bool
  specOk : Bool
  execRaises : Bool
  gameClasses : List Nat
  modulePath : String
  metaName : Option String
deriving DecidableEq, Repr

/-- `PluginManager.load_plugin` (core/plugin_manager.py lines 71-132).
Every failure path — unresolvable file (lines 88-89), unusable spec
(lines 94-95), an exception from `exec_module` (lines 129-132, caught by
`except Exception`), or a module with no `BaseGame` subclass
(lines 118-119) — returns `None`; only a module exposing a game class
yields a `PluginInfo` built from its first game class. -/
def load_plugin (c : PluginCandidate) : Option PluginInfo :=
  if ¬c.fileFound then none
  else if ¬c.specOk then none
  else if c.execRaises then none
  else
    match c.gameClasses with
    | [] => none
    | g :: _ =>
      some { module_path := c.modulePath, gameClassId := g, enabled := true,
             metaName := c.metaName }

/-- `PluginManager.load_all_plugins` (lines 134-142) over the discovery
result: each discovered (plugin_id, candidate) not already registered is
loaded, and registered exactly when `load_plugin` returned something;
a `None` is skipped and discovery continues with the next candidate. -/
def load_all_plugins (discovered : List (String × PluginCandidate))
    (plugins : List (String × PluginInfo)) : List (String × PluginInfo) :=
  discovered.foldl
    (fun acc pc =>
      if (acc.lookup pc.1).isSome then acc
      else
        match load_plugin pc.2 with
        | some info => acc ++ [(pc.1, info)]
        | none => acc)
    plugins

/-! ## Claims -/

/-- Helper for C5: every single MazeGame score transition preserves
non-negativity. -/
theorem mazeScoreStep_nonneg (s : Int) (e : MazeScoreEvent) (h : 0 ≤ s) :
    0 ≤ mazeScoreStep s e := by
  cases e with
  | coin => simp only [mazeScoreStep]; omega
  | stepOnEnemy => exact le_max_left 0 _
  | enemyCollision => exact le_max_left 0 _
  | levelComplete elapsedMs time_limit moves coinsLeft =>
    simp only [mazeScoreStep]
    have h3 : (0 : Int) ≤ (coinsLeft : Int) * 20 := by positivity
    split <;> omega

/-- C5: the session score is never negative.  Starting from any
non-negative score (a fresh MazeGame starts at 0), after any sequence of
MazeGame score events — coin pickups, the two clamped penalty events
(stepping on an enemy, -50, and an enemy reaching the player, -100) and
level-completion bonuses — every intermediate score observed along the way
is still ≥ 0. -/
theorem maze_score_floor (events : List MazeScoreEvent) (s0 : Int) (h : 0 ≤ s0)
    (t : Int) (ht : t ∈ List.scanl mazeScoreStep s0 events) : 0 ≤ t := by
  induction events generalizing s0 with
  | nil =>
    simp only [List.scanl, List.mem_singleton] at ht
    omega
  | cons e es ih =>
    rw [List.scanl_cons] at ht
    rcases List.mem_append.mp ht with h1 | h1
    · rw [List.mem_singleton] at h1
      omega
    · exact ih (mazeScoreStep s0 e) (mazeScoreStep_nonneg s0 e h) h1

/-- Witness for C5 at a concrete run: score 0, then a coin, both penalties
and a level completion; the observed value 20235 stays ≥ 0. -/
theorem maze_score_floor_witness :
    (0 : Int) ≤ 0 ∧
    (20235 : Int) ∈ List.scanl mazeScoreStep 0
      [MazeScoreEvent.coin, MazeScoreEvent.stepOnEnemy,
        MazeScoreEvent.enemyCollision,
        MazeScoreEvent.levelComplete 10000 20000 5 2] ∧
    (0 : Int) ≤ 20235 :=
  ⟨by decide, by decide,
    maze_score_floor
      [MazeScoreEvent.coin, MazeScoreEvent.stepOnEnemy,
        MazeScoreEvent.enemyCollision,
        MazeScoreEvent.levelComplete 10000 20000 5 2]
      0 (by decide) 20235 (by decide)⟩

/-- C6: mode gating.  The mode-validation check `validate_mode` answers
true exactly when the requested mode is a member of the game's
`supported_modes`, and `_select_game_mode` — the only way a mode reaches
`game.run` from the launcher — only ever returns a member of
`supported_modes`, so no session is started with an unsupported mode. -/
theorem mode_gating (supported_modes : List GameMode) (mode : GameMode)
    (menuChoice : Option String) :
    (validate_mode supported_modes mode = true ↔ mode ∈ supported_modes) ∧
    (∀ m, selectGameMode supported_modes menuChoice = some m →
      m ∈ supported_modes) := by
  constructor
  · simp [validate_mode, List.elem_iff]
  · intro m hm
    rcases supported_modes with _ | ⟨a, _ | ⟨b, tl⟩⟩ <;>
      simp only [selectGameMode] at hm
    · rcases menuChoice with _ | text
      · exact absurd hm (by simp)
      · by_cases hb : text = "Back" <;> simp [hb] at hm
    · cases hm
      exact List.mem_singleton_self m
    · rcases menuChoice with _ | text
      · exact absurd hm (by simp)
      · by_cases hb : text = "Back"
        · simp [hb] at hm
        · simp only [hb, if_false] at hm
          exact List.mem_of_find?_eq_some hm

/-- Witness for C6 at concrete inputs: the maze game's supported-mode list;
MULTIPLAYER is not validated, TIME_ATTACK is, and a menu pick of
"Time Attack" yields a supported mode. -/
theorem mode_gating_witness :
    (validate_mode
        [GameMode.NORMAL, GameMode.TIME_ATTACK, GameMode.INFINITE, GameMode.SPEEDRUN]
        GameMode.TIME_ATTACK = true ↔
      GameMode.TIME_ATTACK ∈
        [GameMode.NORMAL, GameMode.TIME_ATTACK, GameMode.INFINITE, GameMode.SPEEDRUN]) ∧
    validate_mode
        [GameMode.NORMAL, GameMode.TIME_ATTACK, GameMode.INFINITE, GameMode.SPEEDRUN]
        GameMode.MULTIPLAYER = false ∧
    selectGameMode
        [GameMode.NORMAL, GameMode.TIME_ATTACK, GameMode.INFINITE, GameMode.SPEEDRUN]
        (some "Time Attack") = some GameMode.TIME_ATTACK ∧
    GameMode.TIME_ATTACK ∈
      [GameMode.NORMAL, GameMode.TIME_ATTACK, GameMode.INFINITE, GameMode.SPEEDRUN] :=
  ⟨(mode_gating
      [GameMode.NORMAL, GameMode.TIME_ATTACK, GameMode.INFINITE, GameMode.SPEEDRUN]
      GameMode.TIME_ATTACK (some "Time Attack")).1,
   by decide, by decide,
   (mode_gating
      [GameMode.NORMAL, GameMode.TIME_ATTACK, GameMode.INFINITE, GameMode.SPEEDRUN]
      GameMode.TIME_ATTACK (some "Time Attack")).2 GameMode.TIME_ATTACK (by decide)⟩

/-- C1: score reporting at the launch boundary.  For a launched session
(plugin resolved, mode selected), if `game.run` returns a score the
launcher emits exactly one score report — the `add_score` call with that
score — and shows no error; if an exception escapes `run`, the `except`
clause catches it, no report is emitted, an error screen is shown, and the
launcher's menu loop keeps running in both cases. -/
theorem score_report_once (player : String) (info : PluginInfo)
    (mode : GameMode) (runResult : RunOutcome) :
    (∀ s, runResult = RunOutcome.ok s →
      launchGame player (some info) (some mode) runResult =
        { reports := [{ player := player, score := s,
                        game_name := info.metadataName,
                        mode_name := mode.value }],
          errorShown := false, running := true }) ∧
    (∀ msg, runResult = RunOutcome.exn msg →
      launchGame player (some info) (some mode) runResult =
        { reports := [], errorShown := true, running := true }) := by
  constructor <;> rintro a rfl <;> rfl

/-- Witness for C1: a normal return emits one report, an escaping
exception emits none and shows the error, at a concrete plugin. -/
theorem score_report_once_witness :
    launchGame "Player"
        (some { module_path := "snake_game", gameClassId := 0, enabled := true,
                metaName := some "Snake Classic" })
        (some GameMode.NORMAL) (RunOutcome.ok 42) =
      { reports := [{ player := "Player", score := 42,
                      game_name := "Snake Classic", mode_name := "normal" }],
        errorShown := false, running := true } ∧
    launchGame "Player"
        (some { module_path := "snake_game", gameClassId := 0, enabled := true,
                metaName := some "Snake Classic" })
        (some GameMode.NORMAL) (RunOutcome.exn "boom") =
      { reports := [], errorShown := true, running := true } :=
  ⟨(score_report_once "Player"
      { module_path := "snake_game", gameClassId := 0, enabled := true,
        metaName := some "Snake Classic" }
      GameMode.NORMAL (RunOutcome.ok 42)).1 42 rfl,
   (score_report_once "Player"
      { module_path := "snake_game", gameClassId := 0, enabled := true,
        metaName := some "Snake Classic" }
      GameMode.NORMAL (RunOutcome.exn "boom")).2 "boom" rfl⟩

/-- C2: `LeaderboardSystem.__init__` reads the unbound name `config`
(its parameter is `config_manager`), so it raises NameError for every
argument, and `GameLauncher.__init__`, which constructs a
LeaderboardSystem unconditionally, propagates that NameError for every
Config. -/
theorem leaderboard_init_name_error (config : Config) :
    LeaderboardSystem.init config = Except.error (PyError.nameError "config") ∧
    GameLauncher.init config = Except.error (PyError.nameError "config") :=
  ⟨rfl, rfl⟩

/-- C7: reversal rejection in SnakeGame.  Delivering the key for the exact
opposite of the current movement direction leaves the pending
`next_direction` unchanged; and no single key event can make the pending
direction the opposite of the current one (so one input alone never steers
the head into the second segment on the next update, which moves the head
by `next_direction`). -/
theorem reversal_rejected (s : SnakeState) :
    (snakeHandleGameInput s (snakeKeyFor s.direction.opposite)).next_direction =
      s.next_direction ∧
    (∀ k, s.next_direction ≠ s.direction.opposite →
      (snakeHandleGameInput s k).next_direction ≠ s.direction.opposite) := by
  constructor
  · cases hd : s.direction <;>
      simp [snakeHandleGameInput, snakeKeyFor, SnakeDirection.opposite, hd]
  · intro k hnd
    cases hd : s.direction <;> cases k <;>
      by_cases hp : s.paused <;>
      simp_all [snakeHandleGameInput, SnakeDirection.opposite, hd, hp]

/-- Witness for C7 at a freshly initialised snake (moving RIGHT): the LEFT
key leaves the pending direction unchanged, and it does not become LEFT. -/
theorem reversal_rejected_witness :
    (snakeHandleGameInput snakeNew
        (snakeKeyFor snakeNew.direction.opposite)).next_direction =
      snakeNew.next_direction ∧
    snakeNew.next_direction ≠ snakeNew.direction.opposite ∧
    (snakeHandleGameInput snakeNew SnakeKey.left).next_direction ≠
      snakeNew.direction.opposite :=
  ⟨(reversal_rejected snakeNew).1, by decide,
   (reversal_rejected snakeNew).2 SnakeKey.left (by decide)⟩

/-- C4 (code bug): MazeGame never assigns `self.current_mode`, so after
`_initialize_game(GameMode.INFINITE)` the attribute is still unset and the
`hasattr(self, 'current_mode')` guard in `_handle_level_complete` is
false: stepping onto the exit in Infinite mode takes the else branch, sets
`game_over`/`won` and leaves `level` at 1 — the session terminates instead
of generating the next stage as the spec (and the game's own help text
"Infinite: Progressively harder mazes") promises. -/
theorem maze_infinite_mode_still_terminates :
    (mazeInitGame GameMode.INFINITE 1 0 7 mazeNew).current_mode = none ∧
    (mazeHandleLevelComplete 5000 9
        (mazeInitGame GameMode.INFINITE 1 0 7 mazeNew)).game_over = true ∧
    (mazeHandleLevelComplete 5000 9
        (mazeInitGame GameMode.INFINITE 1 0 7 mazeNew)).won = true ∧
    (mazeHandleLevelComplete 5000 9
        (mazeInitGame GameMode.INFINITE 1 0 7 mazeNew)).level = 1 ∧
    (mazeHandleLevelComplete 5000 9
        (mazeInitGame GameMode.INFINITE 1 0 7 mazeNew)).coins = 7 := by
  refine ⟨rfl, rfl, rfl, rfl, rfl⟩

/-- A Time-Attack snake run that never pauses: three loop iterations one
minute of wall time apart (no keys pressed). -/
def snakeTicksNoPause : List SnakeTick :=
  [{ dt := 60000, key := none, rng := { foodIndex := 0, special := false } },
   { dt := 60000, key := none, rng := { foodIndex := 0, special := false } },
   { dt := 60000, key := none, rng := { foodIndex := 0, special := false } }]

/-- The identical Time-Attack snake run except that the player pauses
immediately, stays paused for one minute of wall time, and resumes: the
session spends 60000 ms of wall time paused. -/
def snakeTicksWithPause : List SnakeTick :=
  [{ dt := 0, key := some SnakeKey.pause, rng := { foodIndex := 0, special := false } },
   { dt := 60000, key := none, rng := { foodIndex := 0, special := false } },
   { dt := 0, key := some SnakeKey.pause, rng := { foodIndex := 0, special := false } },
   { dt := 60000, key := none, rng := { foodIndex := 0, special := false } },
   { dt := 60000, key := none, rng := { foodIndex := 0, special := false } }]

set_option maxRecDepth 100000 in
/-- C3 counterexample: in a Time-Attack snake session (limit 180 s) the
run that never pauses reaches time-limit expiry after 180000 ms of
accumulated un-paused play, while the identical run that paused for
60000 ms reaches expiry after only 120000 ms of accumulated un-paused
play — the paused minute counted toward the time limit, because `_update`
measures `time.time() - self.start_time` and `start_time` is never
adjusted across a pause.  The claim says the two quantities are equal. -/
theorem pause_clock_counterexample :
    (snakeRun GameMode.TIME_ATTACK 0 26 34 { foodIndex := 0, special := false }
        snakeTicksNoPause).1.game_over = true ∧
    (snakeRun GameMode.TIME_ATTACK 0 26 34 { foodIndex := 0, special := false }
        snakeTicksWithPause).1.game_over = true ∧
    snakePlayTime GameMode.TIME_ATTACK 0 26 34 { foodIndex := 0, special := false }
        snakeTicksNoPause = 180000 ∧
    snakePlayTime GameMode.TIME_ATTACK 0 26 34 { foodIndex := 0, special := false }
        snakeTicksWithPause = 120000 ∧
    snakePlayTime GameMode.TIME_ATTACK 0 26 34 { foodIndex := 0, special := false }
        snakeTicksNoPause ≠
      snakePlayTime GameMode.TIME_ATTACK 0 26 34 { foodIndex := 0, special := false }
        snakeTicksWithPause := by
  refine ⟨rfl, rfl, rfl, rfl, by decide⟩

/-- C3 amended: while `phase = Paused` the update is skipped entirely — a
paused `_update` changes nothing, so time-limit expiry cannot fire during
the pause — but the elapsed clock itself keeps running: it is wall-clock
time since `start_time`, never adjusted for pauses, so once un-paused any
update at wall time `start_time + time_limit` or later ends the session,
and a run paused for duration D reaches expiry after D less accumulated
un-paused play time than an identical run that never pauses. -/
theorem pause_skips_update_but_clock_runs (rng : SnakeRng) (now : Int)
    (s : SnakeState) :
    (s.paused = true → snakeUpdate rng now s = s) ∧
    (s.paused = false → s.game_over = false → s.time_limit > 0 →
      now - s.start_time ≥ s.time_limit →
      (snakeUpdate rng now s).game_over = true) := by
  constructor
  · intro hp
    simp [snakeUpdate, hp]
  · intro hp hg htl he
    simp [snakeUpdate, hp, hg, htl, he]

/-- Witness for the amended C3 statement: a paused update is the identity;
an un-paused update past the limit ends the session. -/
theorem pause_skips_update_but_clock_runs_witness :
    snakeUpdate { foodIndex := 0, special := false } 99
        { snakeNew with paused := true } =
      { snakeNew with paused := true } ∧
    (snakeUpdate { foodIndex := 0, special := false } 5000
        { snakeNew with time_limit := 5000, running := true }).game_over = true :=
  ⟨(pause_skips_update_but_clock_runs { foodIndex := 0, special := false } 99
      { snakeNew with paused := true }).1 rfl,
   (pause_skips_update_but_clock_runs { foodIndex := 0, special := false } 5000
      { snakeNew with time_limit := 5000, running := true }).2 rfl rfl
      (by decide) (by decide)⟩

/-- C8 counterexample: in a session with a time limit (here Time Attack,
180 s), `_draw_ui` prints `Time: remaining` computed from `time.time()`,
so two consecutive renders with no intervening update or input — only the
wall clock having advanced (here by one second) — write different
(row, col, text) triples.  The claim says they are identical. -/
theorem render_purity_counterexample :
    snakeDrawUi 0
        { snakeNew with time_limit := 180000, game_speed := 120,
                        snake := [(15, 10), (14, 10), (13, 10)] } ≠
      snakeDrawUi 1000
        { snakeNew with time_limit := 180000, game_speed := 120,
                        snake := [(15, 10), (14, 10), (13, 10)] } := by
  decide

/-- C8 amended: `_draw_ui` mutates no session state (it is a pure function
of the session state and the wall clock), and for a session without a time
limit its writes do not depend on the clock at all, so two consecutive
renders write identical triples; only the `Time:` line of a time-limited
session depends on the wall clock and differs between consecutive
renders. -/
theorem draw_ui_independent_of_clock (s : SnakeState) (t1 t2 : Int)
    (h : ¬s.time_limit > 0) : snakeDrawUi t1 s = snakeDrawUi t2 s := by
  simp [snakeDrawUi, h]

/-- Witness for the amended C8 statement at a fresh snake state (no time
limit): renders at two different clock readings agree. -/
theorem draw_ui_independent_of_clock_witness :
    ¬(snakeNew.time_limit > 0) ∧
      snakeDrawUi 0 snakeNew = snakeDrawUi 1000 snakeNew :=
  ⟨by decide, draw_ui_independent_of_clock snakeNew 0 1000 (by decide)⟩

/-- Helper for C9: a key whose lookup succeeds is among the stored keys. -/
theorem lookup_isSome_mem_fst {α β : Type} [BEq α] [LawfulBEq α]
    (l : List (α × β)) (k : α) (h : (l.lookup k).isSome = true) :
    k ∈ l.map Prod.fst := by
  induction l with
  | nil => simp [List.lookup] at h
  | cons p t ih =>
    rcases p with ⟨a, b⟩
    by_cases hk : (k == a) = true
    · simp [List.mem_cons]
      exact Or.inl (eq_of_beq hk)
    · simp only [List.lookup, hk] at h
      simp only [List.map_cons, List.mem_cons]
      exact Or.inr (ih h)

/-- Helper for C9: one step of the `load_all_plugins` fold, by definition
of `List.foldl`. -/
theorem load_all_plugins_cons (hd : String × PluginCandidate)
    (t : List (String × PluginCandidate)) (acc : List (String × PluginInfo)) :
    load_all_plugins (hd :: t) acc =
      load_all_plugins t
        (if (acc.lookup hd.1).isSome then acc
         else
           match load_plugin hd.2 with
           | some info => acc ++ [(hd.1, info)]
           | none => acc) := rfl

/-- Helper for C9: the fold never removes a registration. -/
theorem load_all_plugins_keys_mono (d : List (String × PluginCandidate)) :
    ∀ (acc : List (String × PluginInfo)) (id : String),
      id ∈ acc.map Prod.fst →
      id ∈ (load_all_plugins d acc).map Prod.fst := by
  induction d with
  | nil => intro acc id h; exact h
  | cons hd t ih =>
    intro acc id h
    rw [load_all_plugins_cons]
    apply ih
    by_cases hl : (acc.lookup hd.1).isSome = true
    · simpa [hl] using h
    · simp only [hl, if_false]
      match load_plugin hd.2 with
      | some info => simpa using Or.inl h
      | none => exact h

/-- C9: discovery is fault-tolerant.  `load_plugin` returns None (it does
not raise) for every malformed candidate — unresolvable file, an
unusable module spec, a module body that raises, or a module with no BaseGame
subclass — and returns a plugin for every well-formed candidate; and
`load_all_plugins` registers every discovered candidate that loads,
whatever malformed candidates appear around it in the discovery list. -/
theorem invalid_plugin_skipped :
    (∀ c : PluginCandidate,
        (c.fileFound = false ∨ c.specOk = false ∨ c.execRaises = true ∨
          c.gameClasses = []) →
        load_plugin c = none) ∧
    (∀ c : PluginCandidate, c.fileFound = true → c.specOk = true →
        c.execRaises = false → c.gameClasses ≠ [] →
        (load_plugin c).isSome = true) ∧
    (∀ (discovered : List (String × PluginCandidate))
        (plugins : List (String × PluginInfo)) (id : String)
        (c : PluginCandidate),
        (id, c) ∈ discovered → (load_plugin c).isSome = true →
        id ∈ (load_all_plugins discovered plugins).map Prod.fst) := by
  refine ⟨?_, ?_, ?_⟩
  · rintro ⟨ff, so, er, gc, mp, mn⟩ h
    rcases h with h | h | h | h <;> subst h <;> simp [load_plugin]
  · intro c h1 h2 h3 h4
    rcases hgc : c.gameClasses with _ | ⟨g, gs⟩
    · exact absurd hgc h4
    · simp [load_plugin, h1, h2, h3, hgc]
  · intro discovered
    induction discovered with
    | nil => intro plugins id c hmem; exact absurd hmem (List.not_mem_nil _)
    | cons hd t ih =>
      intro plugins id c hmem hsome
      rw [load_all_plugins_cons]
      rcases List.mem_cons.mp hmem with heq | hmem2
      · subst heq
        by_cases hl : (plugins.lookup id).isSome = true
        · apply load_all_plugins_keys_mono
          simpa [hl] using lookup_isSome_mem_fst plugins id hl
        · obtain ⟨info, hinfo⟩ := Option.isSome_iff_exists.mp hsome
          apply load_all_plugins_keys_mono
          simp [hl, hinfo]
      · exact ih _ id c hmem2 hsome

/-- Witness for C9 at concrete candidates: a candidate whose module body
raises loads as None, a well-formed candidate loads, and running discovery
over both registers the well-formed one. -/
theorem invalid_plugin_skipped_witness :
    load_plugin
        { fileFound := true, specOk := true, execRaises := true,
          gameClasses := [], modulePath := "bad_plugin",
          metaName := none } = none ∧
    (load_plugin
        { fileFound := true, specOk := true, execRaises := false,
          gameClasses := [3], modulePath := "snake_game",
          metaName := some "Snake Classic" }).isSome = true ∧
    "snake_game" ∈
      (load_all_plugins
          [("bad_plugin",
            { fileFound := true, specOk := true, execRaises := true,
              gameClasses := [], modulePath := "bad_plugin",
              metaName := none }),
           ("snake_game",
            { fileFound := true, specOk := true, execRaises := false,
              gameClasses := [3], modulePath := "snake_game",
              metaName := some "Snake Classic" })]
          []).map Prod.fst :=
  ⟨invalid_plugin_skipped.1
      { fileFound := true, specOk := true, execRaises := true,
        gameClasses := [], modulePath := "bad_plugin", metaName := none }
      (Or.inr (Or.inr (Or.inl rfl))),
   invalid_plugin_skipped.2.1
      { fileFound := true, specOk := true, execRaises := false,
        gameClasses := [3], modulePath := "snake_game",
        metaName := some "Snake Classic" }
      rfl rfl rfl (by decide),
   invalid_plugin_skipped.2.2
      [("bad_plugin",
        { fileFound := true, specOk := true, execRaises := true,
          gameClasses := [], modulePath := "bad_plugin", metaName := none }),
       ("snake_game",
        { fileFound := true, specOk := true, execRaises := false,
          gameClasses := [3], modulePath := "snake_game",
          metaName := some "Snake Classic" })]
      [] "snake_game"
      { fileFound := true, specOk := true, execRaises := false,
        gameClasses := [3], modulePath := "snake_game",
        metaName := some "Snake Classic" }
      (by decide) (by decide)⟩

/-- Helper for C10: `ghost_py` is not among the names `_draw_board` binds,
so its lookup fails whatever the bound values are. -/
theorem ghost_py_unbound (x y ghost_y px py ghost_px : Int) :
    (tetrisDrawBoardLocals x y ghost_y px py ghost_px).lookup "ghost_py" =
      none := rfl

/-- Helper for C10: as soon as the ghost-piece loop reaches a block inside
the board, the read of the unbound name `ghost_py` raises NameError. -/
theorem tetrisGhostLoop_err (width height : Int) (p : Tetromino)
    (ghost_y x y : Int) (l : List (Int × Int)) :
    ∀ (writes : List (Int × Int × Char)),
      (∃ b ∈ l, 0 ≤ b.2 ∧ b.2 < height ∧ 0 ≤ b.1 ∧ b.1 < width) →
      tetrisGhostLoop width height p ghost_y x y l writes =
        Except.error (PyError.nameError "ghost_py") := by
  induction l with
  | nil =>
    rintro writes ⟨b, hb, _⟩
    exact absurd hb (List.not_mem_nil b)
  | cons b rest ih =>
    intro writes h
    by_cases hc : 0 ≤ b.2 ∧ b.2 < height ∧ 0 ≤ b.1 ∧ b.1 < width
    · simp [tetrisGhostLoop, hc, ghost_py_unbound]
    · obtain ⟨b2, hb2, hcond⟩ := h
      rcases List.mem_cons.mp hb2 with rfl | hmem
      · exact absurd hcond hc
      · simp only [tetrisGhostLoop, hc, if_false]
        exact ih writes ⟨b2, hmem, hcond⟩

/-- C10: whenever the current piece has at least one block inside the
board — true for every piece from its spawn (at `(width // 2 - 1, 0)`)
until game over, since moves and rotations are collision-checked —
`_draw_board` raises `NameError` on the unbound name `ghost_py` while
drawing the ghost piece, so every rendered frame with a current piece
faults. -/
theorem tetris_ghost_name_error (board : List (List Nat)) (width height : Int)
    (p : Tetromino) (x y : Int)
    (h : ∃ b ∈ p.get_blocks, 0 ≤ b.2 ∧ b.2 < height ∧ 0 ≤ b.1 ∧ b.1 < width) :
    tetrisDrawBoard board width height (some p) x y =
      Except.error (PyError.nameError "ghost_py") := by
  have hg := tetrisGhostLoop_err width height p
    (tetrisGhostY board width height p) x y p.get_blocks [] h
  simp only [tetrisDrawBoard, tetrisGhostWrites, hg]
  rfl

/-- Witness for C10: the very first frame of a tetris session — empty
20 x 10 board, a T piece freshly spawned at (4, 0) — faults with
NameError on `ghost_py`. -/
theorem tetris_ghost_name_error_witness :
    (∃ b ∈ (tetrisSpawnPiece 10 TetrominoType.T).get_blocks,
        0 ≤ b.2 ∧ b.2 < 20 ∧ 0 ≤ b.1 ∧ b.1 < 10) ∧
    tetrisDrawBoard tetrisEmptyBoard 10 20
        (some (tetrisSpawnPiece 10 TetrominoType.T)) 3 2 =
      Except.error (PyError.nameError "ghost_py") :=
  ⟨by decide,
   tetris_ghost_name_error tetrisEmptyBoard 10 20
     (tetrisSpawnPiece 10 TetrominoType.T) 3 2 (by decide)⟩
